import Mathlib

/-!
# ECOS: sampling / decide / actuate control loop (src/ecos.c)

Shallow embedding of the control loop of `src/ecos.c` and theorems about it.

Modelling conventions.

* C `int` values (`freq`, `min_freq`, `base_freq`, `max_freq`, `err_count`,
  return codes) are mathematical integers.  The only arithmetic performed on
  them is `err_count + 1` (never above `SAMPLE_ERR_LIMIT`) and
  `freq - 1e5` / `freq + 1e5`, which C evaluates in `double` (exact for every
  32-bit `int`) and converts back to `int`; `candidate_in_int_range` below
  shows that the result stays inside the `int` range whenever the bounds are
  at least `1e5` away from `INT_MIN` / `INT_MAX`.
* C `double` values (samples, socket statistics) are rationals: exact
  arithmetic.  Comparison against the constants `0.5` and `0.8` is exact on
  doubles as well.
* Calls into the outside world are inputs of the model: the return value of
  `perfmon_readGroupCounters`, the values of `perfmon_getLastMetric`, the
  return value of `fprintf` on a core's frequency file, the clock.  Outputs
  (`printf`, `fprintf`, `perror`, the log) are recorded as a list of `Effect`.
-/

namespace ECOS

/-! ## Constants -/

/-- Source line 11: `const int SAMPLE_ERR_LIMIT = 5;`. -/
def SAMPLE_ERR_LIMIT : Int := 5

/-- Value of `EXIT_SUCCESS` from `stdlib.h`. -/
def EXIT_SUCCESS : Int := 0

/-- Value of `EXIT_FAILURE` from `stdlib.h`. -/
def EXIT_FAILURE : Int := 1

/-- Largest value of a 32-bit C `int`. -/
def INT_MAX : Int := 2147483647

/-- Smallest value of a 32-bit C `int`. -/
def INT_MIN : Int := -2147483648

/-! ## Data model -/

/-- Source lines 21-27: `struct cpu_data`.  The file handle `fp` is an
abstract handle number. -/
structure cpu_data where
  id : Int
  sid : Nat
  fp : Nat
  sample : ℚ
  freq : Int
  deriving DecidableEq

/-- C `struct timespec`, filled by `clock_gettime`. -/
structure timespec where
  tv_sec : Int
  tv_nsec : Int
  deriving DecidableEq

/-- Source line 33: the globals `min_freq, base_freq, max_freq`. -/
structure freq_bounds where
  min_freq : Int
  base_freq : Int
  max_freq : Int
  deriving DecidableEq

/-- The fields of LIKWID's `CpuTopology_t` that the program reads
(lines 85-93 and 341). -/
structure CpuTopology where
  numHWThreads : Nat
  numSockets : Nat
  numCoresPerSocket : Nat
  numThreadsPerCore : Nat
  deriving DecidableEq

/-- Observable outputs of the program, in program order. -/
inductive Effect where
  /-- Line 315: the `set_freq ...` line on stdout. -/
  | print_set_freq (ts : timespec) (id : Int) (throttle : Bool) (freq new_freq : Int)
      (socket_avg sample : ℚ)
  /-- Line 318 and line 257: `fprintf(cpu->fp, "%d", value)`. -/
  | write_freq (fp : Nat) (value : Int)
  /-- Line 323: `perror("Failed to set new frequency")`. -/
  | perror_set_freq
  /-- Line 272: `Failed to read counters ...` on stderr. -/
  | stderr_read_failed (err : Int)
  /-- Line 117: `Failed to update sample data for %d iterations` on stderr. -/
  | stderr_limit (limit : Int)
  /-- Line 121: one call of `likwid_log(&ts)`, which appends one record. -/
  | likwid_log (ts : timespec)
  /-- Line 127: `Ending...` on stdout. -/
  | print_ending
  /-- Line 329: `Received signal %d, finishing gracefully...` on stderr. -/
  | stderr_signal (signo : Int)
  /-- Line 261: `fclose(LIKWID_LOG)`. -/
  | close_log
  deriving DecidableEq

/-! ## `should_throttle` (lines 286-289) -/

/-- Lines 286-289: `return socket_avg > 0.5 && core_val > 0.8;`. -/
def should_throttle (core_val socket_avg : ℚ) : Bool :=
  decide (socket_avg > 1 / 2) && decide (core_val > 4 / 5)

/-! ## `set_freq` (lines 292-324) -/

/-- Lines 296-313 of `set_freq`: the candidate `new_freq`, or `none` where the
function returns early. -/
def new_freq (b : freq_bounds) (throttle : Bool) (freq : Int) : Option Int :=
  if throttle then
    if freq ≤ b.min_freq then none
    else if freq = b.max_freq ∧ freq ≠ b.base_freq then some b.base_freq
    else some (freq - 100000)
  else
    if freq ≥ b.max_freq then none
    else if freq = b.base_freq then some b.max_freq
    else some (freq + 100000)

/-- Lines 292-324: `set_freq(throttle, cpu, ts)`.  `cpus_stats` is the global
array read by the `printf`; `res` is the value returned by
`fprintf(cpu->fp, "%d", new_freq)` (positive when the write succeeded).
Returns the updated record and the outputs produced. -/
def set_freq (b : freq_bounds) (cpus_stats : List ℚ) (throttle : Bool) (cpu : cpu_data)
    (ts : timespec) (res : Int) : cpu_data × List Effect :=
  match new_freq b throttle cpu.freq with
  | none => (cpu, [])
  | some nf =>
    let out := [Effect.print_set_freq ts cpu.id throttle cpu.freq nf
                  (cpus_stats.getD cpu.sid 0) cpu.sample,
                Effect.write_freq cpu.fp nf]
    if res > 0 then ({ cpu with freq := nf }, out)
    else (cpu, out ++ [Effect.perror_set_freq])

/-- The call `set_freq(throttle, &cpus[i], &ts)` on the global array `cpus`:
only element `i` is passed to `set_freq`.  An index outside the array (not
reachable when `cpus` has `numHWThreads` elements) leaves the array as it is. -/
def set_freq_at (b : freq_bounds) (cpus_stats : List ℚ) (throttle : Bool)
    (cpus : List cpu_data) (i : Nat) (ts : timespec) (res : Int) :
    List cpu_data × List Effect :=
  match cpus[i]? with
  | none => (cpus, [])
  | some cpu =>
    let r := set_freq b cpus_stats throttle cpu ts res
    (cpus.set i r.1, r.2)

/-! ## `update_samples` (lines 267-283) -/

/-- Lines 279-280: `cpus[i].sample = perfmon_getLastMetric(gid, LIKWID_METRIC_ID, i)`
for the elements of the array, the first of which has index `i`. -/
def store_samples (metric : Nat → ℚ) : Nat → List cpu_data → List cpu_data
  | _, [] => []
  | i, c :: cs => { c with sample := metric i } :: store_samples metric (i + 1) cs

/-- Lines 267-283: `update_samples()`.  `err` is the value returned by
`perfmon_readGroupCounters(gid)`, `metric i` the value of
`perfmon_getLastMetric(gid, LIKWID_METRIC_ID, i)`.  Returns the exit code, the
array `cpus` afterwards and the outputs. -/
def update_samples (err : Int) (metric : Nat → ℚ) (cpus : List cpu_data) :
    Int × List cpu_data × List Effect :=
  if err < 0 then (EXIT_FAILURE, cpus, [Effect.stderr_read_failed err])
  else (EXIT_SUCCESS, store_samples metric 0 cpus, [])

/-! ## Socket aggregation (lines 84-91) -/

/-- Lines 87-88: `cpus_stats[cpus[i].sid] += cpus[i].sample` for every entry. -/
def accumulate (cpus : List cpu_data) (stats : List ℚ) : List ℚ :=
  cpus.foldl (fun st c => st.set c.sid (st.getD c.sid 0 + c.sample)) stats

/-- Lines 85-91: the value of `cpus_stats` after the aggregation step:
`memset` to zero, accumulate every entry into its socket, divide every socket
by `numCoresPerSocket`. -/
def aggregate (topo : CpuTopology) (cpus : List cpu_data) : List ℚ :=
  (accumulate cpus (List.replicate topo.numSockets 0)).map
    (fun x => x / (topo.numCoresPerSocket : ℚ))

/-! ## The sampling loop (lines 77-125)

The arrays `cpus` and `cpus_stats` are allocated with `numHWThreads` and
`numSockets` elements (lines 192 and 199); the loops
`for (i = 0; i < numHWThreads; i++)` over `cpus` traverse the whole list. -/

/-- Lines 93-94: `set_freq(should_throttle(cpus[i].sample, cpus_stats[cpus[i].sid]),
&cpus[i], &ts)` for `n` consecutive indices starting at `i`.  `res i` is the
value `fprintf` returns for core `i`. -/
def set_freq_loop (b : freq_bounds) (cpus_stats : List ℚ) (ts : timespec) (res : Nat → Int) :
    Nat → Nat → List cpu_data → List cpu_data × List Effect
  | 0, _, cpus => (cpus, [])
  | n + 1, i, cpus =>
    match cpus[i]? with
    | none => set_freq_loop b cpus_stats ts res n (i + 1) cpus
    | some c =>
      let r := set_freq_at b cpus_stats (should_throttle c.sample (cpus_stats.getD c.sid 0))
        cpus i ts (res i)
      let rest := set_freq_loop b cpus_stats ts res n (i + 1) r.1
      (rest.1, r.2 ++ rest.2)

/-- What the outside world supplies during one iteration of the loop. -/
structure tick_input where
  /-- Value returned by `perfmon_readGroupCounters(gid)` (line 269). -/
  read_err : Int
  /-- Value of `perfmon_getLastMetric(gid, LIKWID_METRIC_ID, i)` (line 280). -/
  metric : Nat → ℚ
  /-- Time stored by `clock_gettime` (line 80). -/
  ts : timespec
  /-- Value returned by `fprintf(cpus[i].fp, ...)` if core `i` is written (line 318). -/
  write_res : Nat → Int

/-- The mutable program state used by the loop: the globals `cpus`,
`cpus_stats` and the local `err_count` of `main`. -/
structure loop_state where
  cpus : List cpu_data
  cpus_stats : List ℚ
  err_count : Int
  deriving DecidableEq

/-- Lines 79-121: one iteration of the `while (1)` body up to and including
`likwid_log`.  Returns the state afterwards, whether the iteration left the
loop through `break` (line 118), and the outputs. -/
def loop_body (topo : CpuTopology) (b : freq_bounds) (t : tick_input) (s : loop_state) :
    (loop_state × Bool) × List Effect :=
  let u := update_samples t.read_err t.metric s.cpus
  if u.1 = 0 then
    let stats := aggregate topo u.2.1
    let r := set_freq_loop b stats t.ts t.write_res u.2.1.length 0 u.2.1
    ((⟨r.1, stats, 0⟩, false), u.2.2 ++ r.2 ++ [Effect.likwid_log t.ts])
  else if s.err_count + 1 ≥ SAMPLE_ERR_LIMIT then
    ((⟨u.2.1, s.cpus_stats, s.err_count + 1⟩, true),
      u.2.2 ++ [Effect.stderr_limit SAMPLE_ERR_LIMIT])
  else
    ((⟨u.2.1, s.cpus_stats, s.err_count + 1⟩, false), u.2.2 ++ [Effect.likwid_log t.ts])

/-- Lines 249-264: `finalize()`: every open frequency file receives `max_freq`,
then the log is closed.  The handle `0` is `NULL`. -/
def finalize (b : freq_bounds) (cpus : List cpu_data) : List Effect :=
  (cpus.filter (fun c => c.fp ≠ 0)).map (fun c => Effect.write_freq c.fp b.max_freq)
    ++ [Effect.close_log]

/-- Lines 327-334: `signal_handler(signo)`: a message on stderr, `finalize()`,
then `exit(EXIT_SUCCESS)`.  Returns the status passed to `exit` and the
outputs. -/
def signal_handler (b : freq_bounds) (cpus : List cpu_data) (signo : Int) :
    Int × List Effect :=
  (EXIT_SUCCESS, Effect.stderr_signal signo :: finalize b cpus)

/-- What happens between two iterations: the next iteration runs, or one of
the signals installed at lines 138-141 arrives. -/
inductive event where
  | tick (t : tick_input)
  | signal (signo : Int)

/-- How the `while (1)` loop stands after a finite sequence of events. -/
inductive loop_result where
  /-- All events consumed; the loop is still iterating. -/
  | running (s : loop_state)
  /-- Line 118: the loop was left by `break`. -/
  | left_by_break (s : loop_state)
  /-- Lines 327-334: `signal_handler` ran and called `exit(status)`. -/
  | exited_by_signal (status : Int)
  deriving DecidableEq

/-- Lines 77-125 together with `signal_handler` (lines 327-334): the loop run
over a finite sequence of events. -/
def while_loop (topo : CpuTopology) (b : freq_bounds) :
    loop_state → List event → loop_result × List Effect
  | s, [] => (loop_result.running s, [])
  | s, event.signal signo :: _ =>
    let h := signal_handler b s.cpus signo
    (loop_result.exited_by_signal h.1, h.2)
  | s, event.tick t :: rest =>
    let r := loop_body topo b t s
    if r.1.2 then (loop_result.left_by_break r.1.1, r.2)
    else
      let k := while_loop topo b r.1.1 rest
      (k.1, r.2 ++ k.2)

/-- Lines 55-131: `main`.  `init_err` is the value returned by `init()`, `cpus`
the array filled by `init` (lines 207-228); `cpus_stats` is zeroed by `calloc`
(line 199).  Returns the exit status of the process, or `none` while the loop
is still running after the given events, and the outputs. -/
def main (topo : CpuTopology) (b : freq_bounds) (init_err : Int) (cpus : List cpu_data)
    (evs : List event) : Option Int × List Effect :=
  if init_err ≠ 0 then (some EXIT_FAILURE, [])
  else
    match while_loop topo b ⟨cpus, List.replicate topo.numSockets 0, 0⟩ evs with
    | (loop_result.running _, out) => (none, out)
    | (loop_result.left_by_break s, out) =>
      (some EXIT_SUCCESS, out ++ Effect.print_ending :: finalize b s.cpus)
    | (loop_result.exited_by_signal status, out) => (some status, out)

/-! ## Specification-side notions -/

/-- Spec wording (Socket Aggregator): the arithmetic mean of the samples of
all monitored entries whose socket id is `s`. -/
def socket_mean (cpus : List cpu_data) (s : Nat) : ℚ :=
  ((cpus.filter (fun c => c.sid = s)).map (fun c => c.sample)).sum /
    ((cpus.filter (fun c => c.sid = s)).length : ℚ)

/-- Sum of the samples of the entries of `cpus` on socket `s`. -/
def socket_sum (cpus : List cpu_data) (s : Nat) : ℚ :=
  ((cpus.filter (fun c => c.sid = s)).map (fun c => c.sample)).sum

/-- A tick whose telemetry read failed (`update_samples` returned non-zero). -/
def failed (t : tick_input) : Bool := decide (t.read_err < 0)

/-- Spec wording (failure budget): the current streak of consecutive failures
at the end of a sequence of ticks. -/
def streak (ts : List tick_input) : Nat := (ts.reverse.takeWhile failed).length

/-- Number of telemetry log records among the outputs. -/
def log_count (out : List Effect) : Nat :=
  out.countP (fun e => match e with | Effect.likwid_log _ => true | _ => false)

/-- Number of frequency-file writes among the outputs. -/
def write_count (out : List Effect) : Nat :=
  out.countP (fun e => match e with | Effect.write_freq _ _ => true | _ => false)

/-- Number of `set_freq` transition lines among the outputs. -/
def transition_count (out : List Effect) : Nat :=
  out.countP (fun e => match e with | Effect.print_set_freq _ _ _ _ _ _ _ => true | _ => false)

/-! ## Example inputs -/

/-- Bounds of the end-to-end scenario: min `1000000`, base `2000000`, max `3000000`. -/
def scenario_bounds : freq_bounds := ⟨1000000, 2000000, 3000000⟩

/-- Topology of the end-to-end scenario: one socket, two cores, one thread each. -/
def scenario_topo : CpuTopology := ⟨2, 1, 2, 1⟩

/-- The two cores of the end-to-end scenario, both at `max_freq`. -/
def scenario_cpus : List cpu_data := [⟨0, 0, 1, 0, 3000000⟩, ⟨1, 0, 2, 0, 3000000⟩]

/-- A tick whose telemetry read fails (`perfmon_readGroupCounters` returns `-1`). -/
def failing_tick : tick_input := ⟨-1, fun _ => 0, ⟨0, 0⟩, fun _ => 1⟩

/-- A tick whose telemetry read succeeds with the same sample `m` on every
core and successful frequency writes. -/
def ok_tick (m : ℚ) : tick_input := ⟨0, fun _ => m, ⟨0, 0⟩, fun _ => 1⟩

/-- A machine with one socket, one core and two hardware threads per core. -/
def smt_topo : CpuTopology := ⟨2, 1, 1, 2⟩

/-- The two hardware threads of `smt_topo`, both on socket `0`. -/
def smt_cpus : List cpu_data := [⟨0, 0, 1, 0, 3000000⟩, ⟨1, 0, 2, 0, 3000000⟩]

/-- A successful tick delivering the samples `0.2` and `0.4`. -/
def smt_tick : tick_input := ⟨0, fun i => if i = 0 then 1 / 5 else 2 / 5, ⟨0, 0⟩, fun _ => 1⟩

/-- The frequencies of the cores of the end-to-end scenario after the given
ticks, while the loop is running. -/
def freqs_after (ticks : List tick_input) : Option (List Int) :=
  match (while_loop scenario_topo scenario_bounds ⟨scenario_cpus, [0], 0⟩
      (ticks.map event.tick)).1 with
  | loop_result.running s => some (s.cpus.map (fun c => c.freq))
  | _ => none

/-! ## Helper lemmas about `set_freq` -/

/-- The early-return branch of `set_freq`: no candidate, nothing happens. -/
theorem set_freq_of_none (b : freq_bounds) (cpus_stats : List ℚ) (throttle : Bool)
    (cpu : cpu_data) (ts : timespec) (res : Int)
    (h : new_freq b throttle cpu.freq = none) :
    set_freq b cpus_stats throttle cpu ts res = (cpu, []) := by
  simp [set_freq, h]

/-- A successful write commits the candidate and nothing else. -/
theorem set_freq_of_some_ok (b : freq_bounds) (cpus_stats : List ℚ) (throttle : Bool)
    (cpu : cpu_data) (ts : timespec) (res nf : Int)
    (h : new_freq b throttle cpu.freq = some nf) (hres : res > 0) :
    (set_freq b cpus_stats throttle cpu ts res).1 = { cpu with freq := nf } := by
  simp [set_freq, h, hres]

/-- A failed write leaves the record as it was. -/
theorem set_freq_of_some_fail (b : freq_bounds) (cpus_stats : List ℚ) (throttle : Bool)
    (cpu : cpu_data) (ts : timespec) (res nf : Int)
    (h : new_freq b throttle cpu.freq = some nf) (hres : ¬ res > 0) :
    (set_freq b cpus_stats throttle cpu ts res).1 = cpu := by
  simp [set_freq, h, hres]

/-- The frequency after `set_freq` is the old one or the candidate. -/
theorem set_freq_freq_cases (b : freq_bounds) (cpus_stats : List ℚ) (throttle : Bool)
    (cpu : cpu_data) (ts : timespec) (res : Int) :
    (set_freq b cpus_stats throttle cpu ts res).1.freq = cpu.freq ∨
      new_freq b throttle cpu.freq = some (set_freq b cpus_stats throttle cpu ts res).1.freq := by
  unfold set_freq
  cases h : new_freq b throttle cpu.freq with
  | none => simp
  | some nf =>
    by_cases hres : res > 0
    · right; simp [hres]
    · left; simp [hres]

/-- Justification of the integer model: when the bounds keep a distance of
`1e5` from the ends of the `int` range, the candidate computed at lines
296-313 fits in an `int`, so the conversion from `double` is exact. -/
theorem candidate_in_int_range (b : freq_bounds) (throttle : Bool) (freq nf : Int)
    (hmin : INT_MIN + 100000 ≤ b.min_freq) (hmax : b.max_freq ≤ INT_MAX - 100000)
    (hbase : INT_MIN ≤ b.base_freq ∧ b.base_freq ≤ INT_MAX)
    (hfreq : INT_MIN ≤ freq ∧ freq ≤ INT_MAX)
    (h : new_freq b throttle freq = some nf) :
    INT_MIN ≤ nf ∧ nf ≤ INT_MAX := by
  unfold new_freq at h
  unfold INT_MIN INT_MAX at *
  split_ifs at h <;> simp at h <;> omega

/-! ## Claims about `should_throttle` and `set_freq` -/

/-- C3: `should_throttle core_val socket_avg` is true exactly when
`socket_avg > 0.5` and `core_val > 0.8`, both strict; at the boundary values
`(0.80, 0.51)` gives false, `(0.81, 0.51)` gives true and `(0.81, 0.50)` gives
false.  Being a function of its two arguments, the result depends on nothing
else. -/
theorem should_throttle_iff (core_val socket_avg : ℚ) :
    (should_throttle core_val socket_avg = true ↔ socket_avg > 1 / 2 ∧ core_val > 4 / 5) ∧
    should_throttle (80 / 100) (51 / 100) = false ∧
    should_throttle (81 / 100) (51 / 100) = true ∧
    should_throttle (81 / 100) (50 / 100) = false := by
  refine ⟨?_, ?_, ?_, ?_⟩
  · simp [should_throttle]
  · simp [should_throttle]; norm_num
  · simp [should_throttle]; norm_num
  · simp [should_throttle]; norm_num

/-- C1 (as stated) fails: with bounds `1000000 ≤ 2000000 ≤ 3000000`, a core at
`1050000` (inside the bounds), `throttle = true` and a successful write ends
at `950000`, below `min_freq`. -/
theorem set_freq_leaves_bounds :
    (0 : Int) < (freq_bounds.mk 1000000 2000000 3000000).min_freq ∧
    (freq_bounds.mk 1000000 2000000 3000000).min_freq ≤
      (freq_bounds.mk 1000000 2000000 3000000).base_freq ∧
    (freq_bounds.mk 1000000 2000000 3000000).base_freq ≤
      (freq_bounds.mk 1000000 2000000 3000000).max_freq ∧
    (freq_bounds.mk 1000000 2000000 3000000).min_freq ≤ (cpu_data.mk 0 0 1 0 1050000).freq ∧
    (cpu_data.mk 0 0 1 0 1050000).freq ≤ (freq_bounds.mk 1000000 2000000 3000000).max_freq ∧
    (set_freq (freq_bounds.mk 1000000 2000000 3000000) [] true (cpu_data.mk 0 0 1 0 1050000)
      (timespec.mk 0 0) 1).1.freq = 950000 ∧
    ¬ ((freq_bounds.mk 1000000 2000000 3000000).min_freq ≤
      (set_freq (freq_bounds.mk 1000000 2000000 3000000) [] true (cpu_data.mk 0 0 1 0 1050000)
        (timespec.mk 0 0) 1).1.freq) := by
  simp [set_freq, new_freq]

/-- C1 (amended): for bounds `min_freq ≤ base_freq ≤ max_freq`, a core with
`min_freq ≤ freq ≤ max_freq`, every throttle flag and every write outcome, the
frequency after `set_freq` is less than one step outside the bounds:
`min_freq - 100000 < freq < max_freq + 100000`.  When moreover the bounds and
the frequency lie on one grid of step `100000` (`base_freq - min_freq`,
`max_freq - min_freq` and `freq - min_freq` are multiples of `100000`), the
frequency after `set_freq` satisfies `min_freq ≤ freq ≤ max_freq` and is on
the grid again. -/
theorem set_freq_preserves_bounds_on_grid (b : freq_bounds) (cpus_stats : List ℚ)
    (throttle : Bool) (cpu : cpu_data) (ts : timespec) (res : Int)
    (hmb : b.min_freq ≤ b.base_freq) (hbM : b.base_freq ≤ b.max_freq)
    (hlo : b.min_freq ≤ cpu.freq) (hhi : cpu.freq ≤ b.max_freq) :
    (b.min_freq - 100000 < (set_freq b cpus_stats throttle cpu ts res).1.freq ∧
      (set_freq b cpus_stats throttle cpu ts res).1.freq < b.max_freq + 100000) ∧
    ((b.base_freq - b.min_freq) % 100000 = 0 → (b.max_freq - b.min_freq) % 100000 = 0 →
      (cpu.freq - b.min_freq) % 100000 = 0 →
      b.min_freq ≤ (set_freq b cpus_stats throttle cpu ts res).1.freq ∧
      (set_freq b cpus_stats throttle cpu ts res).1.freq ≤ b.max_freq ∧
      ((set_freq b cpus_stats throttle cpu ts res).1.freq - b.min_freq) % 100000 = 0) := by
  rcases set_freq_freq_cases b cpus_stats throttle cpu ts res with h | h
  · rw [h]
    exact ⟨⟨by omega, by omega⟩, fun _ _ hg => ⟨hlo, hhi, hg⟩⟩
  · generalize (set_freq b cpus_stats throttle cpu ts res).1.freq = f at h
    unfold new_freq at h
    split_ifs at h <;> simp at h <;>
      exact ⟨⟨by omega, by omega⟩, fun _ _ _ => ⟨by omega, by omega, by omega⟩⟩

/-- Witness for C1 (amended): with bounds `1000000 ≤ 2000000 ≤ 3000000`,
throttling a core at `1100000` (on the grid) ends at `1000000`, within the
bounds. -/
theorem set_freq_preserves_bounds_on_grid_witness :
    (1000000 : Int) ≤ (set_freq ⟨1000000, 2000000, 3000000⟩ [] true ⟨0, 0, 1, 0, 1100000⟩
      ⟨0, 0⟩ 1).1.freq ∧
    (set_freq ⟨1000000, 2000000, 3000000⟩ [] true ⟨0, 0, 1, 0, 1100000⟩ ⟨0, 0⟩ 1).1.freq
      ≤ 3000000 ∧
    ((set_freq ⟨1000000, 2000000, 3000000⟩ [] true ⟨0, 0, 1, 0, 1100000⟩ ⟨0, 0⟩ 1).1.freq
      - 1000000) % 100000 = 0 :=
  (set_freq_preserves_bounds_on_grid ⟨1000000, 2000000, 3000000⟩ [] true
    ⟨0, 0, 1, 0, 1100000⟩ ⟨0, 0⟩ 1 (by decide) (by decide) (by decide) (by decide)).2
    (by decide) (by decide) (by decide)

/-- Repeating a call that changes nothing changes nothing. -/
theorem foldl_fixed {α β : Type} (f : α → β → α) (a : α) (h : ∀ x, f a x = a) (l : List β) :
    l.foldl f a = a := by
  induction l with
  | nil => rfl
  | cons x xs ih => simp [List.foldl, h, ih]

/-- C5: a core with `freq ≤ min_freq` and `throttle = true` gets no actuator
write, no transition line and an unchanged record; symmetrically for a core
with `freq ≥ max_freq` and `throttle = false`.  Hence any sequence of such
calls (whatever the timestamps and write outcomes) leaves the record as it
was. -/
theorem set_freq_noop_at_bounds (b : freq_bounds) (cpus_stats : List ℚ) (cpu : cpu_data) :
    (cpu.freq ≤ b.min_freq →
      (∀ ts res, set_freq b cpus_stats true cpu ts res = (cpu, [])) ∧
      (∀ calls : List (timespec × Int),
        calls.foldl (fun c r => (set_freq b cpus_stats true c r.1 r.2).1) cpu = cpu)) ∧
    (cpu.freq ≥ b.max_freq →
      (∀ ts res, set_freq b cpus_stats false cpu ts res = (cpu, [])) ∧
      (∀ calls : List (timespec × Int),
        calls.foldl (fun c r => (set_freq b cpus_stats false c r.1 r.2).1) cpu = cpu)) := by
  constructor
  · intro h
    have h1 : ∀ ts res, set_freq b cpus_stats true cpu ts res = (cpu, []) := by
      intro ts res
      apply set_freq_of_none
      simp [new_freq, h]
    refine ⟨h1, fun calls => ?_⟩
    apply foldl_fixed
    intro r
    simp [h1]
  · intro h
    have h1 : ∀ ts res, set_freq b cpus_stats false cpu ts res = (cpu, []) := by
      intro ts res
      apply set_freq_of_none
      simp [new_freq, h]
    refine ⟨h1, fun calls => ?_⟩
    apply foldl_fixed
    intro r
    simp [h1]

/-- Witness for C5: a core at the floor `1000000` throttled, and a core at the
ceiling `3000000` unthrottled, three times each with successful writes. -/
theorem set_freq_noop_at_bounds_witness :
    (set_freq ⟨1000000, 2000000, 3000000⟩ [] true ⟨0, 0, 1, 0, 1000000⟩ ⟨0, 0⟩ 1
        = (⟨0, 0, 1, 0, 1000000⟩, [])) ∧
    ([(⟨0, 0⟩, 1), (⟨1, 0⟩, 1), (⟨2, 0⟩, 1)].foldl
        (fun c (r : timespec × Int) =>
          (set_freq ⟨1000000, 2000000, 3000000⟩ [] false c r.1 r.2).1)
        (⟨0, 0, 1, 0, 3000000⟩ : cpu_data) = ⟨0, 0, 1, 0, 3000000⟩) :=
  ⟨((set_freq_noop_at_bounds ⟨1000000, 2000000, 3000000⟩ [] ⟨0, 0, 1, 0, 1000000⟩).1
      (by decide)).1 ⟨0, 0⟩ 1,
   ((set_freq_noop_at_bounds ⟨1000000, 2000000, 3000000⟩ [] ⟨0, 0, 1, 0, 3000000⟩).2
      (by decide)).2 [(⟨0, 0⟩, 1), (⟨1, 0⟩, 1), (⟨2, 0⟩, 1)]⟩

/-- C6: with `min_freq ≤ base_freq ≤ max_freq` and a successful write,
(i) a core at `max_freq`, where `max_freq ≠ base_freq`, given `throttle = true`
ends at `base_freq` (the write carries `base_freq`, not `max_freq - 100000`),
and (ii) a core at `base_freq` given `throttle = false` ends at `max_freq`. -/
theorem set_freq_fast_lane (b : freq_bounds) (cpus_stats : List ℚ) (cpu : cpu_data)
    (ts : timespec) (res : Int)
    (hmb : b.min_freq ≤ b.base_freq) (hbM : b.base_freq ≤ b.max_freq) (hres : res > 0) :
    (cpu.freq = b.max_freq → b.max_freq ≠ b.base_freq →
      set_freq b cpus_stats true cpu ts res =
        ({ cpu with freq := b.base_freq },
         [Effect.print_set_freq ts cpu.id true cpu.freq b.base_freq
            (cpus_stats.getD cpu.sid 0) cpu.sample,
          Effect.write_freq cpu.fp b.base_freq])) ∧
    (cpu.freq = b.base_freq →
      (set_freq b cpus_stats false cpu ts res).1 = { cpu with freq := b.max_freq }) := by
  constructor
  · intro h1 h2
    have hc : new_freq b true cpu.freq = some b.base_freq := by
      have : ¬ b.max_freq ≤ b.min_freq := by omega
      simp [new_freq, h1, this, h2]
    simp [set_freq, hc, hres]
  · intro h1
    by_cases hM : b.base_freq = b.max_freq
    · have hc : new_freq b false cpu.freq = none := by
        simp [new_freq, h1, hM]
      rw [set_freq_of_none _ _ _ _ _ _ hc]
      cases cpu
      simp_all
    · have hc : new_freq b false cpu.freq = some b.max_freq := by
        have : ¬ b.base_freq ≥ b.max_freq := by omega
        simp [new_freq, h1, this]
      exact set_freq_of_some_ok _ _ _ _ _ _ _ hc hres

/-- Witness for C6: bounds `1000000 ≤ 2000000 ≤ 3000000`; a core at `3000000`
throttled ends at `2000000`, a core at `2000000` unthrottled ends at
`3000000`. -/
theorem set_freq_fast_lane_witness :
    (set_freq ⟨1000000, 2000000, 3000000⟩ [] true ⟨0, 0, 1, 0, 3000000⟩ ⟨0, 0⟩ 1).1.freq
      = 2000000 ∧
    (set_freq ⟨1000000, 2000000, 3000000⟩ [] false ⟨0, 0, 1, 0, 2000000⟩ ⟨0, 0⟩ 1).1.freq
      = 3000000 :=
  ⟨by
    rw [(set_freq_fast_lane ⟨1000000, 2000000, 3000000⟩ [] ⟨0, 0, 1, 0, 3000000⟩ ⟨0, 0⟩ 1
      (by decide) (by decide) (by decide)).1 rfl (by decide)],
   by
    rw [(set_freq_fast_lane ⟨1000000, 2000000, 3000000⟩ [] ⟨0, 0, 1, 0, 2000000⟩ ⟨0, 0⟩ 1
      (by decide) (by decide) (by decide)).2 rfl]⟩

/-- C7: for a core with `min_freq < freq < max_freq` and `freq ≠ base_freq` and
a successful write, `set_freq` moves `freq` by exactly `100000` in the
direction of the signal: `throttle = true` gives `freq - 100000`,
`throttle = false` gives `freq + 100000`. -/
theorem set_freq_fixed_step (b : freq_bounds) (cpus_stats : List ℚ) (cpu : cpu_data)
    (ts : timespec) (res : Int)
    (hlo : b.min_freq < cpu.freq) (hhi : cpu.freq < b.max_freq)
    (hbase : cpu.freq ≠ b.base_freq) (hres : res > 0) :
    (set_freq b cpus_stats true cpu ts res).1 = { cpu with freq := cpu.freq - 100000 } ∧
    (set_freq b cpus_stats false cpu ts res).1 = { cpu with freq := cpu.freq + 100000 } := by
  constructor
  · apply set_freq_of_some_ok _ _ _ _ _ _ _ _ hres
    have h1 : ¬ cpu.freq ≤ b.min_freq := by omega
    have h2 : ¬ cpu.freq = b.max_freq := by omega
    simp [new_freq, h1, h2]
  · apply set_freq_of_some_ok _ _ _ _ _ _ _ _ hres
    have h1 : ¬ cpu.freq ≥ b.max_freq := by omega
    simp [new_freq, h1, hbase]

/-- Witness for C7, from the end-to-end scenario (min `1000000`, base
`2000000`, max `3000000`): unthrottling at `1900000` gives `2000000`. -/
theorem set_freq_fixed_step_witness :
    (set_freq ⟨1000000, 2000000, 3000000⟩ [] false ⟨0, 0, 1, 0, 1900000⟩ ⟨0, 0⟩ 1).1
      = ⟨0, 0, 1, 0, 2000000⟩ :=
  (set_freq_fixed_step ⟨1000000, 2000000, 3000000⟩ [] ⟨0, 0, 1, 0, 1900000⟩ ⟨0, 0⟩ 1
    (by decide) (by decide) (by decide) (by decide)).2

/-- Unfolding of `set_freq_at` at an index inside the array. -/
theorem set_freq_at_of_some (b : freq_bounds) (cpus_stats : List ℚ) (throttle : Bool)
    (cpus : List cpu_data) (i : Nat) (cpu : cpu_data) (ts : timespec) (res : Int)
    (hi : cpus[i]? = some cpu) :
    set_freq_at b cpus_stats throttle cpus i ts res =
      (cpus.set i (set_freq b cpus_stats throttle cpu ts res).1,
       (set_freq b cpus_stats throttle cpu ts res).2) := by
  simp [set_freq_at, hi]

/-- Storing back the element already present leaves a list unchanged. -/
theorem set_same {α : Type} (l : List α) (i : Nat) (a : α) (h : l[i]? = some a) :
    l.set i a = l := by
  apply List.ext_getElem?
  intro n
  by_cases hn : i = n
  · subst hn
    rcases List.getElem?_eq_some.1 h with ⟨hlt, _⟩
    rw [List.getElem?_set]
    simp [hlt, h]
  · simp [List.getElem?_set, hn]

/-- C8: for a call of `set_freq` on `cpus[i]` that attempts a transition to a
candidate `nf`: the write of `nf` to the core's file is attempted; if the
write succeeds, `cpus[i]` afterwards is the old record with `freq = nf`; if
the write fails, the array (so also `cpus[i]`, every field) is unchanged and
the failure is reported; in both cases every other element of `cpus` is
unchanged. -/
theorem set_freq_commit (b : freq_bounds) (cpus_stats : List ℚ) (throttle : Bool)
    (cpus : List cpu_data) (i : Nat) (cpu : cpu_data) (ts : timespec) (res nf : Int)
    (hi : cpus[i]? = some cpu) (hc : new_freq b throttle cpu.freq = some nf) :
    Effect.write_freq cpu.fp nf ∈ (set_freq_at b cpus_stats throttle cpus i ts res).2 ∧
    (res > 0 →
      (set_freq_at b cpus_stats throttle cpus i ts res).1[i]?
        = some { cpu with freq := nf }) ∧
    (¬ res > 0 →
      (set_freq_at b cpus_stats throttle cpus i ts res).1 = cpus ∧
      Effect.perror_set_freq ∈ (set_freq_at b cpus_stats throttle cpus i ts res).2) ∧
    (∀ j, j ≠ i →
      (set_freq_at b cpus_stats throttle cpus i ts res).1[j]? = cpus[j]?) ∧
    (set_freq_at b cpus_stats throttle cpus i ts res).1.length = cpus.length := by
  have hlt : i < cpus.length := (List.getElem?_eq_some.1 hi).1
  rw [set_freq_at_of_some _ _ _ _ _ _ _ _ hi]
  refine ⟨?_, ?_, ?_, ?_, ?_⟩
  · by_cases hres : res > 0 <;> simp [set_freq, hc, hres]
  · intro hres
    rw [set_freq_of_some_ok _ _ _ _ _ _ _ hc hres]
    simp [hlt]
  · intro hres
    rw [set_freq_of_some_fail _ _ _ _ _ _ _ hc hres]
    exact ⟨set_same _ _ _ hi, by simp [set_freq, hc, hres]⟩
  · intro j hj
    simp [List.getElem?_set, Ne.symm hj]
  · simp

/-- Witness for C8: two cores at `2500000`; core `1` is unthrottled, once with
a successful write and once with a failed one. -/
theorem set_freq_commit_witness :
    ((set_freq_at ⟨1000000, 2000000, 3000000⟩ [] false
        [⟨0, 0, 1, 0, 2500000⟩, ⟨1, 0, 2, 0, 2500000⟩] 1 ⟨0, 0⟩ 1).1[1]?
      = some ⟨1, 0, 2, 0, 2600000⟩) ∧
    ((set_freq_at ⟨1000000, 2000000, 3000000⟩ [] false
        [⟨0, 0, 1, 0, 2500000⟩, ⟨1, 0, 2, 0, 2500000⟩] 1 ⟨0, 0⟩ (-1)).1
      = [⟨0, 0, 1, 0, 2500000⟩, ⟨1, 0, 2, 0, 2500000⟩]) :=
  ⟨(set_freq_commit ⟨1000000, 2000000, 3000000⟩ [] false
      [⟨0, 0, 1, 0, 2500000⟩, ⟨1, 0, 2, 0, 2500000⟩] 1 ⟨1, 0, 2, 0, 2500000⟩ ⟨0, 0⟩ 1 2600000
      rfl (by decide)).2.1 (by decide),
   ((set_freq_commit ⟨1000000, 2000000, 3000000⟩ [] false
      [⟨0, 0, 1, 0, 2500000⟩, ⟨1, 0, 2, 0, 2500000⟩] 1 ⟨1, 0, 2, 0, 2500000⟩ ⟨0, 0⟩ (-1) 2600000
      rfl (by decide)).2.2.1 (by decide)).1⟩

/-! ## Socket aggregation -/

/-- Reading a list after one in-place update. -/
theorem getD_set_eq (l : List ℚ) (k s : Nat) (v : ℚ) (hs : s < l.length) :
    (l.set k v).getD s 0 = if k = s then v else l.getD s 0 := by
  by_cases hk : k = s
  · subst hk
    simp [List.getD_eq_getElem?_getD, List.getElem?_set, hs]
  · simp [List.getD_eq_getElem?_getD, List.getElem?_set, hk]

/-- The accumulation loop keeps the length of `cpus_stats`. -/
theorem accumulate_length (cpus : List cpu_data) (stats : List ℚ) :
    (accumulate cpus stats).length = stats.length := by
  induction cpus generalizing stats with
  | nil => rfl
  | cons c cs ih =>
    simp only [accumulate, List.foldl_cons] at ih ⊢
    rw [ih]
    simp

/-- Lines 87-88: after the accumulation loop, slot `s` holds its old value
plus the samples of all entries whose socket id is `s`. -/
theorem accumulate_getD (cpus : List cpu_data) (stats : List ℚ) (s : Nat)
    (hs : s < stats.length) :
    (accumulate cpus stats).getD s 0 = stats.getD s 0 + socket_sum cpus s := by
  induction cpus generalizing stats with
  | nil => simp [accumulate, socket_sum]
  | cons c cs ih =>
    have hlen : s < (stats.set c.sid (stats.getD c.sid 0 + c.sample)).length := by
      simpa using hs
    have step := ih (stats.set c.sid (stats.getD c.sid 0 + c.sample)) hlen
    simp only [accumulate, List.foldl_cons] at step ⊢
    rw [step, getD_set_eq _ _ _ _ hs]
    by_cases hk : c.sid = s
    · subst hk
      simp [socket_sum, List.filter_cons]
      ring
    · simp [socket_sum, List.filter_cons, hk]

/-- Lines 85-91: after the aggregation step, `cpus_stats[s]` is the sum of the
samples on socket `s` divided by `numCoresPerSocket`. -/
theorem aggregate_getD (topo : CpuTopology) (cpus : List cpu_data) (s : Nat)
    (hs : s < topo.numSockets) :
    (aggregate topo cpus).getD s 0 = socket_sum cpus s / (topo.numCoresPerSocket : ℚ) := by
  have hlen : s < (accumulate cpus (List.replicate topo.numSockets 0)).length := by
    rw [accumulate_length]; simpa using hs
  have hacc := accumulate_getD cpus (List.replicate topo.numSockets 0) s (by simpa using hs)
  have h0 : (List.replicate topo.numSockets (0 : ℚ)).getD s 0 = 0 := by
    simp [List.getD_eq_getElem?_getD, List.getElem?_replicate, hs]
  rw [h0, zero_add] at hacc
  unfold aggregate
  rw [List.getD_eq_getElem?_getD, List.getElem?_map] at *
  rw [List.getElem?_eq_getElem hlen] at hacc ⊢
  simp only [Option.map_some', Option.getD_some] at hacc ⊢
  rw [hacc]

/-- With `numCoresPerSocket * numThreadsPerCore` entries on socket `s`, the
value the code leaves in `cpus_stats[s]` is `numThreadsPerCore` times the
arithmetic mean of that socket's samples. -/
theorem aggregate_eq_threads_mul_mean (topo : CpuTopology) (cpus : List cpu_data) (s : Nat)
    (hs : s < topo.numSockets) (hc : 1 ≤ topo.numCoresPerSocket)
    (ht : 1 ≤ topo.numThreadsPerCore)
    (hcount : (cpus.filter (fun c => c.sid = s)).length
      = topo.numCoresPerSocket * topo.numThreadsPerCore) :
    (aggregate topo cpus).getD s 0 = (topo.numThreadsPerCore : ℚ) * socket_mean cpus s := by
  rw [aggregate_getD topo cpus s hs]
  unfold socket_mean
  rw [hcount]
  have h1 : (topo.numCoresPerSocket : ℚ) ≠ 0 := by
    have : 0 < topo.numCoresPerSocket := hc
    exact_mod_cast this.ne.symm
  have h2 : (topo.numThreadsPerCore : ℚ) ≠ 0 := by
    have : 0 < topo.numThreadsPerCore := ht
    exact_mod_cast this.ne.symm
  unfold socket_sum
  push_cast
  field_simp
  ring

/-! ## One iteration of the loop -/

/-- A tick whose read succeeded: aggregation, the `set_freq` loop, then the
log; `err_count` becomes `0` and the loop goes on. -/
theorem loop_body_ok (topo : CpuTopology) (b : freq_bounds) (t : tick_input) (s : loop_state)
    (h : ¬ t.read_err < 0) :
    loop_body topo b t s =
      ((⟨(set_freq_loop b (aggregate topo (store_samples t.metric 0 s.cpus)) t.ts t.write_res
            (store_samples t.metric 0 s.cpus).length 0 (store_samples t.metric 0 s.cpus)).1,
          aggregate topo (store_samples t.metric 0 s.cpus), 0⟩, false),
       (set_freq_loop b (aggregate topo (store_samples t.metric 0 s.cpus)) t.ts t.write_res
            (store_samples t.metric 0 s.cpus).length 0 (store_samples t.metric 0 s.cpus)).2
          ++ [Effect.likwid_log t.ts]) := by
  simp [loop_body, update_samples, h, EXIT_SUCCESS]

/-- A tick whose read failed below the limit: only `err_count` changes, the
log is still written and the loop goes on. -/
theorem loop_body_fail (topo : CpuTopology) (b : freq_bounds) (t : tick_input) (s : loop_state)
    (h : t.read_err < 0) (hc : s.err_count + 1 < SAMPLE_ERR_LIMIT) :
    loop_body topo b t s =
      ((⟨s.cpus, s.cpus_stats, s.err_count + 1⟩, false),
       [Effect.stderr_read_failed t.read_err, Effect.likwid_log t.ts]) := by
  have hc2 : ¬ SAMPLE_ERR_LIMIT ≤ s.err_count + 1 := not_le.2 hc
  simp [loop_body, update_samples, h, EXIT_FAILURE, hc2]

/-- A tick whose read failed and reached the limit: the loop is left by
`break` before the log is written. -/
theorem loop_body_fail_limit (topo : CpuTopology) (b : freq_bounds) (t : tick_input)
    (s : loop_state) (h : t.read_err < 0) (hc : s.err_count + 1 ≥ SAMPLE_ERR_LIMIT) :
    loop_body topo b t s =
      ((⟨s.cpus, s.cpus_stats, s.err_count + 1⟩, true),
       [Effect.stderr_read_failed t.read_err, Effect.stderr_limit SAMPLE_ERR_LIMIT]) := by
  have hc2 : SAMPLE_ERR_LIMIT ≤ s.err_count + 1 := hc
  simp [loop_body, update_samples, h, EXIT_FAILURE, hc2]

/-- The outputs of `set_freq` contain no log record. -/
theorem log_count_set_freq (b : freq_bounds) (cpus_stats : List ℚ) (throttle : Bool)
    (cpu : cpu_data) (ts : timespec) (res : Int) :
    log_count (set_freq b cpus_stats throttle cpu ts res).2 = 0 := by
  unfold set_freq
  cases new_freq b throttle cpu.freq with
  | none => simp [log_count]
  | some nf => by_cases hres : res > 0 <;> simp [log_count, hres]

/-- The outputs of `set_freq` on `cpus[i]` contain no log record. -/
theorem log_count_set_freq_at (b : freq_bounds) (cpus_stats : List ℚ) (throttle : Bool)
    (cpus : List cpu_data) (i : Nat) (ts : timespec) (res : Int) :
    log_count (set_freq_at b cpus_stats throttle cpus i ts res).2 = 0 := by
  unfold set_freq_at
  cases cpus[i]? with
  | none => simp [log_count]
  | some c => exact log_count_set_freq b cpus_stats throttle c ts res

/-- Log records of a concatenation of outputs. -/
theorem log_count_append (xs ys : List Effect) :
    log_count (xs ++ ys) = log_count xs + log_count ys := by
  simp [log_count, List.countP_append]

/-- The `set_freq` loop of lines 93-94 writes no log record. -/
theorem log_count_set_freq_loop (b : freq_bounds) (cpus_stats : List ℚ) (ts : timespec)
    (res : Nat → Int) (n i : Nat) (cpus : List cpu_data) :
    log_count (set_freq_loop b cpus_stats ts res n i cpus).2 = 0 := by
  induction n generalizing i cpus with
  | zero => simp [set_freq_loop, log_count]
  | succ n ih =>
    unfold set_freq_loop
    cases h : cpus[i]? with
    | none => simpa using ih (i + 1) cpus
    | some c =>
      simp only [log_count_append]
      rw [log_count_set_freq_at, ih]

/-! ## The loop over a sequence of events -/

/-- While the loop is running after `evs1`, the events `evs2` are processed
from the state reached. -/
theorem while_loop_append_running (topo : CpuTopology) (b : freq_bounds) (s s1 : loop_state)
    (evs1 evs2 : List event)
    (h : (while_loop topo b s evs1).1 = loop_result.running s1) :
    while_loop topo b s (evs1 ++ evs2) =
      ((while_loop topo b s1 evs2).1,
       (while_loop topo b s evs1).2 ++ (while_loop topo b s1 evs2).2) := by
  induction evs1 generalizing s with
  | nil =>
    simp only [while_loop, loop_result.running.injEq] at h
    subst h
    simp [while_loop]
  | cons e rest ih =>
    cases e with
    | signal signo => simp [while_loop] at h
    | tick t =>
      rw [List.cons_append]
      simp only [while_loop] at h ⊢
      by_cases hb : (loop_body topo b t s).1.2 = true
      · simp [hb] at h
      · simp only [hb] at h ⊢
        simp only [Bool.false_eq_true, if_false] at h ⊢
        rw [ih _ h]
        simp

/-- Once the loop has been left, later events are never looked at. -/
theorem while_loop_append_stopped (topo : CpuTopology) (b : freq_bounds) (s : loop_state)
    (evs1 evs2 : List event)
    (h : ∀ s1, (while_loop topo b s evs1).1 ≠ loop_result.running s1) :
    while_loop topo b s (evs1 ++ evs2) = while_loop topo b s evs1 := by
  induction evs1 generalizing s with
  | nil => exact absurd rfl (h s)
  | cons e rest ih =>
    cases e with
    | signal signo => simp [while_loop]
    | tick t =>
      rw [List.cons_append]
      simp only [while_loop] at h ⊢
      by_cases hb : (loop_body topo b t s).1.2 = true
      · simp [hb]
      · simp only [hb] at h ⊢
        simp only [Bool.false_eq_true, if_false] at h ⊢
        rw [ih _ h]

/-- The loop over a single tick. -/
theorem while_loop_singleton (topo : CpuTopology) (b : freq_bounds) (s : loop_state)
    (t : tick_input) :
    while_loop topo b s [event.tick t] =
      if (loop_body topo b t s).1.2 = true
      then (loop_result.left_by_break (loop_body topo b t s).1.1, (loop_body topo b t s).2)
      else (loop_result.running (loop_body topo b t s).1.1, (loop_body topo b t s).2) := by
  by_cases hb : (loop_body topo b t s).1.2 = true <;> simp [while_loop, hb]

/-- The streak after one more tick. -/
theorem streak_append_singleton (ts : List tick_input) (t : tick_input) :
    streak (ts ++ [t]) = if failed t = true then streak ts + 1 else 0 := by
  by_cases h : failed t = true <;> simp [streak, List.takeWhile_cons, h]

/-- As long as no tick so far completed five consecutive failures, the loop is
running and `err_count` is the current streak. -/
theorem while_loop_running (topo : CpuTopology) (b : freq_bounds) (s : loop_state)
    (ts : List tick_input) (h0 : s.err_count = 0)
    (hno : ∀ k, k ≤ ts.length → streak (ts.take k) ≤ 4) :
    ∃ s1, (while_loop topo b s (ts.map event.tick)).1 = loop_result.running s1 ∧
      s1.err_count = (streak ts : Int) := by
  induction ts using List.reverseRecOn with
  | nil => exact ⟨s, by simp [while_loop], by simp [streak, h0]⟩
  | append_singleton ts t ih =>
    have hno1 : ∀ k, k ≤ ts.length → streak (ts.take k) ≤ 4 := by
      intro k hk
      have := hno k (by simp; omega)
      rwa [List.take_append_of_le_length hk] at this
    obtain ⟨s1, hrun, hcnt⟩ := ih hno1
    have hlast : streak (ts ++ [t]) ≤ 4 := by
      have := hno (ts ++ [t]).length (le_refl _)
      rwa [List.take_length] at this
    rw [List.map_append, while_loop_append_running topo b s s1 _ _ hrun]
    rw [streak_append_singleton] at hlast ⊢
    simp only [List.map_cons, List.map_nil, while_loop_singleton]
    by_cases hf : failed t = true
    · have hlt : t.read_err < 0 := by simpa [failed] using hf
      simp only [hf, if_true] at hlast ⊢
      have hc : s1.err_count + 1 < SAMPLE_ERR_LIMIT := by
        rw [hcnt]; unfold SAMPLE_ERR_LIMIT; omega
      refine ⟨⟨s1.cpus, s1.cpus_stats, s1.err_count + 1⟩, ?_, ?_⟩
      · simp [loop_body_fail topo b t s1 hlt hc]
      · simp [hcnt]
    · have hge : ¬ t.read_err < 0 := by simpa [failed] using hf
      simp only [hf]
      refine ⟨(loop_body topo b t s1).1.1, ?_, ?_⟩
      · simp [loop_body_ok topo b t s1 hge]
      · simp [loop_body_ok topo b t s1 hge]

/-- A streak is no longer than the sequence of ticks. -/
theorem streak_le_length (ts : List tick_input) : streak ts ≤ ts.length := by
  unfold streak
  calc (ts.reverse.takeWhile failed).length
      ≤ ts.reverse.length := (List.takeWhile_sublist _).length_le
    _ = ts.length := List.length_reverse ts

/-- C9: with `SAMPLE_ERR_LIMIT = 5`, starting from `err_count = 0`, for every
sequence of ticks none of which completed five consecutive failures:
the loop is still running and `err_count` equals the current streak (at most
4); a next tick that completes five consecutive failures leaves the loop at
that very tick, whatever would follow; a next tick that succeeds keeps the
loop running and resets `err_count` to 0. -/
theorem failure_budget (topo : CpuTopology) (b : freq_bounds) (s : loop_state)
    (ts : List tick_input) (h0 : s.err_count = 0)
    (hno : ∀ k, k ≤ ts.length → streak (ts.take k) ≤ 4) :
    SAMPLE_ERR_LIMIT = 5 ∧
    (∃ s1, (while_loop topo b s (ts.map event.tick)).1 = loop_result.running s1 ∧
      s1.err_count = (streak ts : Int)) ∧
    (∀ t rest, streak (ts ++ [t]) = 5 →
      (∃ s1, (while_loop topo b s ((ts ++ [t]).map event.tick ++ rest)).1
        = loop_result.left_by_break s1) ∧
      while_loop topo b s ((ts ++ [t]).map event.tick ++ rest)
        = while_loop topo b s ((ts ++ [t]).map event.tick)) ∧
    (∀ t, failed t = false →
      ∃ s1, (while_loop topo b s ((ts ++ [t]).map event.tick)).1 = loop_result.running s1 ∧
        s1.err_count = 0) := by
  obtain ⟨s1, hrun, hcnt⟩ := while_loop_running topo b s ts h0 hno
  refine ⟨rfl, ⟨s1, hrun, hcnt⟩, ?_, ?_⟩
  · intro t rest h5
    rw [streak_append_singleton] at h5
    have hf : failed t = true := by
      by_contra hf
      simp [hf] at h5
    simp only [hf, if_true] at h5
    have hlt : t.read_err < 0 := by simpa [failed] using hf
    have hc : s1.err_count + 1 ≥ SAMPLE_ERR_LIMIT := by
      rw [hcnt]; unfold SAMPLE_ERR_LIMIT; omega
    have hlast : while_loop topo b s ((ts ++ [t]).map event.tick) =
        (loop_result.left_by_break ⟨s1.cpus, s1.cpus_stats, s1.err_count + 1⟩,
         (while_loop topo b s (ts.map event.tick)).2 ++
           [Effect.stderr_read_failed t.read_err, Effect.stderr_limit SAMPLE_ERR_LIMIT]) := by
      rw [List.map_append, while_loop_append_running topo b s s1 _ _ hrun]
      simp [while_loop_singleton, loop_body_fail_limit topo b t s1 hlt hc]
    have hstop : while_loop topo b s ((ts ++ [t]).map event.tick ++ rest)
        = while_loop topo b s ((ts ++ [t]).map event.tick) := by
      apply while_loop_append_stopped
      intro s2
      rw [hlast]
      simp
    refine ⟨⟨⟨s1.cpus, s1.cpus_stats, s1.err_count + 1⟩, ?_⟩, hstop⟩
    rw [hstop, hlast]
  · intro t hf
    have hge : ¬ t.read_err < 0 := by simpa [failed] using hf
    refine ⟨(loop_body topo b t s1).1.1, ?_, ?_⟩
    · rw [List.map_append, while_loop_append_running topo b s s1 _ _ hrun]
      simp [while_loop_singleton, loop_body_ok topo b t s1 hge]
    · simp [loop_body_ok topo b t s1 hge]

/-- Witness for C9: after four failing ticks the loop is running with
`err_count = 4`; the fifth failing tick leaves the loop; a successful tick
after the four failures resets the counter. -/
theorem failure_budget_witness :
    (∃ s1, (while_loop scenario_topo scenario_bounds ⟨scenario_cpus, [0], 0⟩
        ((List.replicate 4 failing_tick).map event.tick)).1 = loop_result.running s1 ∧
      s1.err_count = (streak (List.replicate 4 failing_tick) : Int)) ∧
    (∃ s1, (while_loop scenario_topo scenario_bounds ⟨scenario_cpus, [0], 0⟩
        ((List.replicate 4 failing_tick ++ [failing_tick]).map event.tick ++ [])).1
      = loop_result.left_by_break s1) ∧
    (∃ s1, (while_loop scenario_topo scenario_bounds ⟨scenario_cpus, [0], 0⟩
        ((List.replicate 4 failing_tick ++ [ok_tick 0]).map event.tick)).1
      = loop_result.running s1 ∧ s1.err_count = 0) :=
  have h := failure_budget scenario_topo scenario_bounds ⟨scenario_cpus, [0], 0⟩
    (List.replicate 4 failing_tick) rfl
    (fun k _ => le_trans (streak_le_length _) (by simp))
  ⟨h.2.1, (h.2.2.1 failing_tick [] (by decide)).1, h.2.2.2 (ok_tick 0) (by decide)⟩

/-! ## Exit status of `main` -/

/-- The only status the signal handler passes to `exit` is `EXIT_SUCCESS`. -/
theorem while_loop_signal_status (topo : CpuTopology) (b : freq_bounds) (s : loop_state)
    (evs : List event) (status : Int)
    (h : (while_loop topo b s evs).1 = loop_result.exited_by_signal status) :
    status = EXIT_SUCCESS := by
  induction evs generalizing s with
  | nil => simp [while_loop] at h
  | cons e rest ih =>
    cases e with
    | signal signo =>
      simp only [while_loop, signal_handler, loop_result.exited_by_signal.injEq] at h
      exact h.symm
    | tick t =>
      simp only [while_loop] at h
      by_cases hb : (loop_body topo b t s).1.2 = true
      · simp [hb] at h
      · simp only [hb, Bool.false_eq_true, if_false] at h
        exact ih _ h

/-- Once `init` has succeeded, every way `main` ends gives `EXIT_SUCCESS`:
line 130 after a `break`, line 333 after a signal. -/
theorem main_status_after_init (topo : CpuTopology) (b : freq_bounds) (cpus : List cpu_data)
    (evs : List event) (status : Int)
    (h : (main topo b 0 cpus evs).1 = some status) :
    status = EXIT_SUCCESS := by
  unfold main at h
  simp only [ne_eq, not_true_eq_false, if_false] at h
  generalize hw : while_loop topo b ⟨cpus, List.replicate topo.numSockets 0, 0⟩ evs = w at h
  rcases w with ⟨r, out⟩
  cases r with
  | running s1 => simp at h
  | left_by_break s1 =>
    simp only [Option.some.injEq] at h
    exact h.symm
  | exited_by_signal st =>
    simp only [Option.some.injEq] at h
    subst h
    exact while_loop_signal_status topo b _ evs st (by rw [hw])

/-- C2 (failing input): in the end-to-end configuration, five consecutive
failing telemetry reads make the loop end through the `break` of line 118, and
`main` then returns `EXIT_SUCCESS = 0`, not a failure status. -/
theorem main_budget_exhausted_status :
    (∃ s1, (while_loop scenario_topo scenario_bounds
        ⟨scenario_cpus, List.replicate scenario_topo.numSockets 0, 0⟩
        (List.replicate 5 (event.tick failing_tick))).1 = loop_result.left_by_break s1 ∧
      s1.err_count = SAMPLE_ERR_LIMIT) ∧
    (main scenario_topo scenario_bounds 0 scenario_cpus
      (List.replicate 5 (event.tick failing_tick))).1 = some EXIT_SUCCESS ∧
    EXIT_SUCCESS = 0 ∧ EXIT_SUCCESS ≠ EXIT_FAILURE := by
  refine ⟨⟨⟨scenario_cpus, [0], 5⟩, ?_, rfl⟩, ?_, rfl, by decide⟩
  · simp [while_loop, loop_body, update_samples, failing_tick, scenario_topo, SAMPLE_ERR_LIMIT,
      EXIT_FAILURE]
  · simp [main, while_loop, loop_body, update_samples, failing_tick, scenario_topo,
      SAMPLE_ERR_LIMIT, EXIT_FAILURE]

/-- A signal ends the process with `EXIT_SUCCESS` (lines 327-334), running
`finalize` first. -/
theorem main_signal_status (topo : CpuTopology) (b : freq_bounds) (cpus : List cpu_data)
    (signo : Int) (rest : List event) :
    main topo b 0 cpus (event.signal signo :: rest) =
      (some EXIT_SUCCESS, Effect.stderr_signal signo :: finalize b cpus) := by
  simp [main, while_loop, signal_handler]

/-! ## The telemetry log -/

/-- C10 (as stated) fails: a single failing tick from the initial state of the
end-to-end configuration emits a log record although the read failed. -/
theorem log_written_on_failed_tick :
    failed failing_tick = true ∧
    log_count (loop_body scenario_topo scenario_bounds failing_tick
      ⟨scenario_cpus, [0], 0⟩).2 = 1 := by
  refine ⟨by decide, ?_⟩
  rw [loop_body_fail _ _ _ _ (by decide) (by decide)]
  simp [log_count]

/-- C10 (amended): in every tick exactly one log record is emitted unless the
tick leaves the loop: a tick whose read succeeded emits one record, a tick
whose read failed with `err_count + 1 < SAMPLE_ERR_LIMIT` emits one record as
well, and the tick whose failure reaches `SAMPLE_ERR_LIMIT` emits none and
breaks.  A tick whose read failed performs no aggregation, throttle decision
or frequency step: `cpus` and `cpus_stats` are unchanged and there is no
transition line and no frequency write. -/
theorem log_emitted_unless_break (topo : CpuTopology) (b : freq_bounds) (t : tick_input)
    (s : loop_state) :
    (¬ t.read_err < 0 →
      log_count (loop_body topo b t s).2 = 1 ∧ (loop_body topo b t s).1.2 = false) ∧
    (t.read_err < 0 → s.err_count + 1 < SAMPLE_ERR_LIMIT →
      log_count (loop_body topo b t s).2 = 1 ∧ (loop_body topo b t s).1.2 = false) ∧
    (t.read_err < 0 → s.err_count + 1 ≥ SAMPLE_ERR_LIMIT →
      log_count (loop_body topo b t s).2 = 0 ∧ (loop_body topo b t s).1.2 = true) ∧
    (t.read_err < 0 →
      (loop_body topo b t s).1.1.cpus = s.cpus ∧
      (loop_body topo b t s).1.1.cpus_stats = s.cpus_stats ∧
      transition_count (loop_body topo b t s).2 = 0 ∧
      write_count (loop_body topo b t s).2 = 0) := by
  refine ⟨?_, ?_, ?_, ?_⟩
  · intro h
    rw [loop_body_ok topo b t s h]
    simp only [log_count_append, log_count_set_freq_loop]
    simp [log_count]
  · intro h hc
    rw [loop_body_fail topo b t s h hc]
    simp [log_count]
  · intro h hc
    rw [loop_body_fail_limit topo b t s h hc]
    simp [log_count]
  · intro h
    by_cases hc : s.err_count + 1 < SAMPLE_ERR_LIMIT
    · rw [loop_body_fail topo b t s h hc]
      simp [transition_count, write_count]
    · rw [loop_body_fail_limit topo b t s h (not_lt.1 hc)]
      simp [transition_count, write_count]

/-- Witness for C10 (amended): a successful tick and a first failing tick both
emit one log record; the failing tick that reaches the limit emits none. -/
theorem log_emitted_unless_break_witness :
    log_count (loop_body scenario_topo scenario_bounds (ok_tick 0) ⟨scenario_cpus, [0], 0⟩).2
      = 1 ∧
    log_count (loop_body scenario_topo scenario_bounds failing_tick ⟨scenario_cpus, [0], 3⟩).2
      = 1 ∧
    log_count (loop_body scenario_topo scenario_bounds failing_tick ⟨scenario_cpus, [0], 4⟩).2
      = 0 :=
  ⟨((log_emitted_unless_break scenario_topo scenario_bounds (ok_tick 0)
      ⟨scenario_cpus, [0], 0⟩).1 (by decide)).1,
   ((log_emitted_unless_break scenario_topo scenario_bounds failing_tick
      ⟨scenario_cpus, [0], 3⟩).2.1 (by decide) (by decide)).1,
   ((log_emitted_unless_break scenario_topo scenario_bounds failing_tick
      ⟨scenario_cpus, [0], 4⟩).2.2.1 (by decide) (by decide)).1⟩

/-! ## Socket aggregation on concrete machines -/

/-- C4 (failing input): one socket, one core, two hardware threads per core
(`numHWThreads = 1 * 1 * 2`, both entries on socket `0`), samples `0.2` and
`0.4`.  After the aggregation step of the successful tick `cpus_stats[0]` is
`0.6`, while the arithmetic mean of the samples on socket `0` is `0.3`. -/
theorem aggregate_smt_not_mean :
    smt_topo.numHWThreads
      = smt_topo.numSockets * smt_topo.numCoresPerSocket * smt_topo.numThreadsPerCore ∧
    smt_cpus.length = smt_topo.numHWThreads ∧
    (loop_body smt_topo scenario_bounds smt_tick ⟨smt_cpus, [0], 0⟩).1.1.cpus_stats = [3 / 5] ∧
    socket_mean (loop_body smt_topo scenario_bounds smt_tick ⟨smt_cpus, [0], 0⟩).1.1.cpus 0
      = 3 / 10 := by
  refine ⟨by decide, by decide, ?_, ?_⟩
  · simp [loop_body, update_samples, store_samples, smt_cpus, smt_tick, smt_topo, aggregate,
      accumulate, EXIT_SUCCESS]
    norm_num
  · simp [loop_body, update_samples, store_samples, smt_cpus, smt_tick, smt_topo, aggregate,
      accumulate, EXIT_SUCCESS, socket_mean, set_freq_loop, set_freq_at, set_freq, new_freq,
      should_throttle, scenario_bounds]
    norm_num

/-- The example of the specification: entries `[s0=0.2, s0=0.4, s1=0.9, s1=0.1]`
with two cores per socket and one thread per core give `0.3` and `0.5`. -/
theorem aggregate_spec_example :
    aggregate ⟨4, 2, 2, 1⟩
      [⟨0, 0, 1, 2 / 10, 0⟩, ⟨1, 0, 2, 4 / 10, 0⟩, ⟨2, 1, 3, 9 / 10, 0⟩, ⟨3, 1, 4, 1 / 10, 0⟩]
      = [3 / 10, 5 / 10] := by
  simp [aggregate, accumulate]
  norm_num

/-! ## The end-to-end scenario of the specification -/

/-- One socket, two cores, min `1000000`, base `2000000`, max `3000000`:
samples `0.9` drop both cores from `3000000` to `2000000`, then to `1900000`;
samples `0.1` step them up to `2000000` and then jump them to `3000000`. -/
theorem scenario_run :
    freqs_after [ok_tick (9 / 10)] = some [2000000, 2000000] ∧
    freqs_after [ok_tick (9 / 10), ok_tick (9 / 10)] = some [1900000, 1900000] ∧
    freqs_after [ok_tick (9 / 10), ok_tick (9 / 10), ok_tick (1 / 10)]
      = some [2000000, 2000000] ∧
    freqs_after [ok_tick (9 / 10), ok_tick (9 / 10), ok_tick (1 / 10), ok_tick (1 / 10)]
      = some [3000000, 3000000] := by
  refine ⟨?_, ?_, ?_, ?_⟩ <;>
  · simp [freqs_after, while_loop, loop_body, update_samples, store_samples, aggregate, accumulate,
      set_freq_loop, set_freq_at, set_freq, new_freq, should_throttle, scenario_topo,
      scenario_bounds, scenario_cpus, ok_tick, EXIT_SUCCESS]
    try norm_num

end ECOS
